import Mathlib

/-!
Verification of the personal income and expense backend (auth routes,
income routes, expense routes, Income and Expense mongoose models).
The Express handlers are embedded as pure functions over explicit store
states; the mongodb persistence layer becomes lists of records, and the
ownership-folded findOne queries become List.find? with the combined
predicate, exactly as the route code builds them.
-/

namespace Pia

/-- HTTP-style error payload: a status code together with the message
string placed in the json body, as every route handler produces on its
failure paths. -/
structure ApiError where
  status : Nat
  message : String
deriving Repr, DecidableEq

/-- Modelled from the spec: the bcryptjs collaborator and the User model
pre-save middleware (models/User.js is not part of the sources). A stored
credential is a salted hash; we represent the digest abstractly by the
salt together with the password that determined it, so that
bcryptCompare can recompute the comparison exactly as bcrypt.compare
does. One-wayness of the real digest is a property of the external
bcrypt collaborator and is outside the embedding. -/
structure BcryptHash where
  salt : Nat
  hashed : String
deriving Repr, DecidableEq

/-- Modelled from the spec: hashing a password with a fresh salt, as the
User model pre-save middleware does via bcrypt. -/
def bcryptHash (salt : Nat) (pw : String) : BcryptHash :=
  ⟨salt, pw⟩

/-- Modelled from the spec: bcrypt.compare recomputes the hash of the
candidate password under the salt stored in the digest and checks it
against the stored digest. -/
def bcryptCompare (pw : String) (h : BcryptHash) : Bool :=
  bcryptHash h.salt pw == h

/-- Decoded JWT payload: jwt.sign binds the userId claim (auth.js line
95). Expiration is handled by the external jwt collaborator and plays no
role in the claims settled here. -/
structure Token where
  userId : Nat
deriving Repr, DecidableEq

/-- A persisted user document: models/User.js record as used by auth.js
(username plus the hashed password field). -/
structure StoredUser where
  id : Nat
  username : String
  password : BcryptHash
deriving Repr, DecidableEq

/-- The user collection, with the id the database would assign to the
next inserted document. -/
structure UserStore where
  users : List StoredUser
  nextId : Nat
deriving Repr, DecidableEq

/-- User.findOne with a username filter (auth.js lines 36 and 83):
first document whose username equals the given one, exact match. -/
def findOneUser (s : UserStore) (username : String) : Option StoredUser :=
  s.users.find? (fun u => u.username == username)

/-- User.findById (auth.js line 138). -/
def findUserById (s : UserStore) (uid : Nat) : Option StoredUser :=
  s.users.find? (fun u => u.id == uid)

/-- Outcome of the create-first-user route. -/
inductive RegisterResult where
  /-- 201, message: User created successfully. -/
  | created : RegisterResult
  /-- 400, message: User already exists (the duplicate-username
  conflict branch, auth.js line 38). -/
  | conflict : RegisterResult
deriving Repr, DecidableEq

/-- The create-first-user handler (auth.js lines 31-52): rejects when a
user with the same username exists, otherwise inserts a new user whose
password field is the salted hash produced by the User model pre-save
middleware. The salt chosen by bcrypt is passed in explicitly. -/
def createFirstUser (s : UserStore) (username pw : String) (salt : Nat) :
    RegisterResult × UserStore :=
  match findOneUser s username with
  | some _ => (.conflict, s)
  | none =>
      let u : StoredUser := ⟨s.nextId, username, bcryptHash salt pw⟩
      (.created, ⟨s.users ++ [u], s.nextId + 1⟩)

/-- The login handler (auth.js lines 78-105): looks the user up by
username, compares the password with bcrypt, and on success signs a
token holding the userId claim. Both failure branches return 401 with
the message Invalid credentials. -/
def login (s : UserStore) (username pw : String) : Except ApiError Token :=
  match findOneUser s username with
  | none => .error ⟨401, "Invalid credentials"⟩
  | some user =>
      if bcryptCompare pw user.password then
        .ok ⟨user.id⟩
      else
        .error ⟨401, "Invalid credentials"⟩

/-- The change-password handler (auth.js lines 133-157): resolves the
userId taken from the already-validated token, verifies the current
password, then stores a fresh hash of the new password (user.save runs
the pre-save hashing middleware; its fresh salt is passed in
explicitly). -/
def changePassword (s : UserStore) (uid : Nat) (currentPw newPw : String)
    (salt : Nat) : Except ApiError Unit × UserStore :=
  match findUserById s uid with
  | none => (.error ⟨404, "User not found"⟩, s)
  | some user =>
      if bcryptCompare currentPw user.password then
        (.ok (),
          ⟨s.users.map (fun u =>
              if u.id == uid then { u with password := bcryptHash salt newPw } else u),
            s.nextId⟩)
      else
        (.error ⟨401, "Current password is incorrect"⟩, s)

/-- File attachment reference as the multer upload collaborator reports
it back: on-disk path plus generated filename. -/
structure FileRef where
  path : String
  filename : String
deriving Repr, DecidableEq

/-- A persisted income document (models/Income.js): required numeric
amount, optional slip attachment reference, optional notes, required
createdBy owner, with the createdAt timestamp added by the schema
timestamps option. -/
structure Income where
  id : Nat
  amount : Int
  slip : Option FileRef
  notes : Option String
  createdBy : Nat
  createdAt : Nat
deriving Repr, DecidableEq

/-- The income collection. -/
structure IncomeStore where
  records : List Income
deriving Repr, DecidableEq

/-- Income.findOne with the combined filter on the document id and
createdBy (income routes, get, put and delete handlers): existence and
ownership folded into one query predicate. -/
def incomeFindOne (s : IncomeStore) (rid uid : Nat) : Option Income :=
  s.records.find? (fun r => r.id == rid && r.createdBy == uid)

/-- The income create handler: builds a document stamped with the acting
userId and the slip reference when a file was uploaded, then saves it.
Mongoose validation requires a castable numeric amount; a missing or
non-numeric form value makes save throw, caught as 400. The database
generated id and the createdAt timestamp are passed in explicitly. -/
def incomeCreate (s : IncomeStore) (uid : Nat) (amount : Option Int)
    (notes : Option String) (file : Option FileRef) (rid now : Nat) :
    Except ApiError Income × IncomeStore :=
  match amount with
  | none => (.error ⟨400, "Income validation failed"⟩, s)
  | some a =>
      let income : Income := ⟨rid, a, file, notes, uid, now⟩
      (.ok income, ⟨s.records ++ [income]⟩)

/-- Insertion step for the descending createdAt sort. -/
def insertDescBy (key : α → Nat) (r : α) : List α → List α
  | [] => [r]
  | x :: xs =>
      if key r ≤ key x then x :: insertDescBy key r xs
      else r :: x :: xs

/-- Descending insertion sort on a key, modelling the mongodb sort on
createdAt with direction -1 (newest first). -/
def sortDescBy (key : α → Nat) : List α → List α
  | [] => []
  | r :: rs => insertDescBy key r (sortDescBy key rs)

/-- The income list handler: Income.find filtered on createdBy equal to
the acting userId, sorted by createdAt descending. -/
def incomeList (s : IncomeStore) (uid : Nat) : List Income :=
  sortDescBy (fun r => r.createdAt) (s.records.filter (fun r => r.createdBy == uid))

/-- The income get-by-id handler: ownership-folded findOne, 404 when it
returns nothing. -/
def incomeGetById (s : IncomeStore) (uid rid : Nat) : Except ApiError Income :=
  match incomeFindOne s rid uid with
  | none => .error ⟨404, "Income record not found"⟩
  | some income => .ok income

/-- The income update handler: ownership-folded findOne, then overwrite
amount and notes from the request body, replace the slip reference only
when a file was uploaded, and save the document back. -/
def incomeUpdate (s : IncomeStore) (uid rid : Nat) (amount : Int)
    (notes : Option String) (file : Option FileRef) :
    Except ApiError Income × IncomeStore :=
  match incomeFindOne s rid uid with
  | none => (.error ⟨404, "Income record not found"⟩, s)
  | some income =>
      let updated : Income :=
        { income with
            amount := amount
            notes := notes
            slip := match file with
              | some f => some f
              | none => income.slip }
      (.ok updated,
        ⟨s.records.map (fun r => if r.id == income.id then updated else r)⟩)

/-- The income delete handler: Income.findOneAndDelete with the same
folded filter, removing the found document; 404 when nothing matches. -/
def incomeDelete (s : IncomeStore) (uid rid : Nat) :
    Except ApiError Unit × IncomeStore :=
  match incomeFindOne s rid uid with
  | none => (.error ⟨404, "Income record not found"⟩, s)
  | some _ =>
      (.ok (), ⟨s.records.eraseP (fun r => r.id == rid && r.createdBy == uid)⟩)

/-- One entry of the items array of an expense document
(models/Expense.js): required description and required numeric amount. -/
structure ExpenseItem where
  description : String
  amount : Int
deriving Repr, DecidableEq

/-- One entry of the items array as it arrives from the client before
mongoose validation: either field may be absent, and a non-castable
amount is represented the same way as an absent one (both make save
throw a 400). -/
structure RawItem where
  description : Option String
  amount : Option Int
deriving Repr, DecidableEq

/-- Mongoose cast and required-field validation of one items entry. -/
def castItem (it : RawItem) : Option ExpenseItem :=
  match it.description, it.amount with
  | some d, some a => some ⟨d, a⟩
  | _, _ => none

/-- Mongoose validation of the whole items array: every entry must cast;
an empty array has nothing to validate and passes. -/
def castItems : List RawItem → Option (List ExpenseItem)
  | [] => some []
  | it :: rest =>
      match castItem it, castItems rest with
      | some e, some es => some (e :: es)
      | _, _ => none

/-- A persisted expense document (models/Expense.js): items array,
required numeric totalAmount, images attachment references, optional
notes, required createdBy owner, createdAt from the timestamps option. -/
structure Expense where
  id : Nat
  items : List ExpenseItem
  totalAmount : Int
  images : List FileRef
  notes : Option String
  createdBy : Nat
  createdAt : Nat
deriving Repr, DecidableEq

/-- The expense collection. -/
structure ExpenseStore where
  records : List Expense
deriving Repr, DecidableEq

/-- Expense.findOne with the combined filter on the document id and
createdBy (expense routes, get, put and delete handlers). -/
def expenseFindOne (s : ExpenseStore) (rid uid : Nat) : Option Expense :=
  s.records.find? (fun r => r.id == rid && r.createdBy == uid)

/-- The expense create handler: first JSON.parse of the items form
field, whose outcome is passed in as itemsField (none when the field is
absent or not parseable JSON, in which case JSON.parse throws and the
catch block answers 400 before any document is built); then the document
is built with the acting userId and the uploaded image references, and
save runs mongoose validation on items and totalAmount. -/
def expenseCreate (s : ExpenseStore) (uid : Nat)
    (itemsField : Option (List RawItem)) (totalAmount : Option Int)
    (notes : Option String) (files : List FileRef) (rid now : Nat) :
    Except ApiError Expense × ExpenseStore :=
  match itemsField with
  | none => (.error ⟨400, "Unexpected token in JSON"⟩, s)
  | some rawItems =>
      match castItems rawItems, totalAmount with
      | some items, some ta =>
          let expense : Expense := ⟨rid, items, ta, files, notes, uid, now⟩
          (.ok expense, ⟨s.records ++ [expense]⟩)
      | _, _ => (.error ⟨400, "Expense validation failed"⟩, s)

/-- The expense list handler: Expense.find filtered on createdBy, sorted
by createdAt descending. -/
def expenseList (s : ExpenseStore) (uid : Nat) : List Expense :=
  sortDescBy (fun r => r.createdAt) (s.records.filter (fun r => r.createdBy == uid))

/-- The expense get-by-id handler: ownership-folded findOne, 404 when it
returns nothing. -/
def expenseGetById (s : ExpenseStore) (uid rid : Nat) : Except ApiError Expense :=
  match expenseFindOne s rid uid with
  | none => .error ⟨404, "Expense not found"⟩
  | some expense => .ok expense

/-- The expense update handler: ownership-folded findOne, then
JSON.parse of the items field (a parse failure after a successful lookup
still answers 400 and saves nothing), overwrite items, totalAmount and
notes, append the uploaded image references to the existing images array
when at least one file came with the request, and save. -/
def expenseUpdate (s : ExpenseStore) (uid rid : Nat)
    (itemsField : Option (List RawItem)) (totalAmount : Option Int)
    (notes : Option String) (files : List FileRef) :
    Except ApiError Expense × ExpenseStore :=
  match expenseFindOne s rid uid with
  | none => (.error ⟨404, "Expense not found"⟩, s)
  | some expense =>
      match itemsField with
      | none => (.error ⟨400, "Unexpected token in JSON"⟩, s)
      | some rawItems =>
          match castItems rawItems, totalAmount with
          | some items, some ta =>
              let updated : Expense :=
                { expense with
                    items := items
                    totalAmount := ta
                    notes := notes
                    images :=
                      if files.length > 0 then expense.images ++ files
                      else expense.images }
              (.ok updated,
                ⟨s.records.map (fun r => if r.id == expense.id then updated else r)⟩)
          | _, _ => (.error ⟨400, "Expense validation failed"⟩, s)

/-- The expense delete handler: Expense.findOneAndDelete with the folded
filter; 404 when nothing matches. -/
def expenseDelete (s : ExpenseStore) (uid rid : Nat) :
    Except ApiError Unit × ExpenseStore :=
  match expenseFindOne s rid uid with
  | none => (.error ⟨404, "Expense not found"⟩, s)
  | some _ =>
      (.ok (), ⟨s.records.eraseP (fun r => r.id == rid && r.createdBy == uid)⟩)

/-! Helper lemmas about the folded findOne queries and the sort. -/

theorem incomeFindOne_some {s : IncomeStore} {rid uid : Nat} {r : Income}
    (h : incomeFindOne s rid uid = some r) :
    r ∈ s.records ∧ r.id = rid ∧ r.createdBy = uid := by
  unfold incomeFindOne at h
  have hp := List.find?_some h
  have hm := List.mem_of_find?_eq_some h
  simp only [Bool.and_eq_true, beq_iff_eq] at hp
  exact ⟨hm, hp.1, hp.2⟩

theorem incomeFindOne_none {s : IncomeStore} {rid uid : Nat}
    (h : ¬ ∃ r ∈ s.records, r.id = rid ∧ r.createdBy = uid) :
    incomeFindOne s rid uid = none := by
  unfold incomeFindOne
  rw [List.find?_eq_none]
  intro x hx hpx
  simp only [Bool.and_eq_true, beq_iff_eq] at hpx
  exact h ⟨x, hx, hpx.1, hpx.2⟩

theorem expenseFindOne_some {s : ExpenseStore} {rid uid : Nat} {e : Expense}
    (h : expenseFindOne s rid uid = some e) :
    e ∈ s.records ∧ e.id = rid ∧ e.createdBy = uid := by
  unfold expenseFindOne at h
  have hp := List.find?_some h
  have hm := List.mem_of_find?_eq_some h
  simp only [Bool.and_eq_true, beq_iff_eq] at hp
  exact ⟨hm, hp.1, hp.2⟩

theorem expenseFindOne_none {s : ExpenseStore} {rid uid : Nat}
    (h : ¬ ∃ e ∈ s.records, e.id = rid ∧ e.createdBy = uid) :
    expenseFindOne s rid uid = none := by
  unfold expenseFindOne
  rw [List.find?_eq_none]
  intro x hx hpx
  simp only [Bool.and_eq_true, beq_iff_eq] at hpx
  exact h ⟨x, hx, hpx.1, hpx.2⟩

theorem mem_insertDescBy (key : α → Nat) (r x : α) (l : List α) :
    x ∈ insertDescBy key r l ↔ x = r ∨ x ∈ l := by
  induction l with
  | nil => simp [insertDescBy]
  | cons y ys ih =>
      unfold insertDescBy
      by_cases h : key r ≤ key y
      · rw [if_pos h]
        simp only [List.mem_cons, ih]
        tauto
      · rw [if_neg h]
        simp [List.mem_cons]

theorem mem_sortDescBy (key : α → Nat) (l : List α) (x : α) :
    x ∈ sortDescBy key l ↔ x ∈ l := by
  induction l with
  | nil => simp [sortDescBy]
  | cons y ys ih =>
      unfold sortDescBy
      rw [mem_insertDescBy key y x (sortDescBy key ys), ih]
      exact (List.mem_cons).symm

theorem pairwise_insertDescBy (key : α → Nat) (r : α) (l : List α)
    (h : l.Pairwise (fun a b => key b ≤ key a)) :
    (insertDescBy key r l).Pairwise (fun a b => key b ≤ key a) := by
  induction l with
  | nil => simp [insertDescBy]
  | cons y ys ih =>
      rw [List.pairwise_cons] at h
      unfold insertDescBy
      by_cases hk : key r ≤ key y
      · rw [if_pos hk, List.pairwise_cons]
        refine ⟨?_, ih h.2⟩
        intro b hb
        rcases (mem_insertDescBy key r b ys).1 hb with hb1 | hb2
        · exact hb1 ▸ hk
        · exact h.1 b hb2
      · rw [if_neg hk, List.pairwise_cons]
        refine ⟨?_, List.pairwise_cons.mpr h⟩
        intro b hb
        rcases List.mem_cons.1 hb with hb1 | hb2
        · exact hb1 ▸ Nat.le_of_lt (Nat.lt_of_not_le hk)
        · exact Nat.le_trans (h.1 b hb2) (Nat.le_of_lt (Nat.lt_of_not_le hk))

theorem pairwise_sortDescBy (key : α → Nat) (l : List α) :
    (sortDescBy key l).Pairwise (fun a b => key b ≤ key a) := by
  induction l with
  | nil => simp [sortDescBy]
  | cons y ys ih => exact pairwise_insertDescBy key y (sortDescBy key ys) ih

theorem find?_username_map (users : List StoredUser) (un : String)
    (g : StoredUser → StoredUser) (hg : ∀ x, (g x).username = x.username)
    (u : StoredUser) (h : users.find? (fun x => x.username == un) = some u) :
    (users.map g).find? (fun x => x.username == un) = some (g u) := by
  rw [List.find?_map]
  have hcomp : ((fun x : StoredUser => x.username == un) ∘ g) =
      (fun x : StoredUser => x.username == un) := by
    funext x
    simp [Function.comp, hg x]
  rw [hcomp, h]
  rfl

theorem castItem_eq_none_iff (it : RawItem) :
    castItem it = none ↔ it.description = none ∨ it.amount = none := by
  unfold castItem
  cases hd : it.description <;> cases ha : it.amount <;> simp

theorem castItems_eq_none_iff (raw : List RawItem) :
    castItems raw = none ↔ ∃ it ∈ raw, it.description = none ∨ it.amount = none := by
  induction raw with
  | nil => simp [castItems]
  | cons it rest ih =>
      unfold castItems
      cases hc : castItem it with
      | none =>
          simp only []
          constructor
          · intro _
            exact ⟨it, List.mem_cons_self it rest, (castItem_eq_none_iff it).1 hc⟩
          · intro _
            cases castItems rest <;> trivial
      | some e =>
          cases hr : castItems rest with
          | none =>
              simp only []
              constructor
              · intro _
                rcases ih.1 hr with ⟨j, hj, hj2⟩
                exact ⟨j, List.mem_cons_of_mem it hj, hj2⟩
              · intro _
                trivial
          | some es =>
              simp only [Option.some.injEq]
              constructor
              · intro hfalse
                cases hfalse
              · intro hex
                exfalso
                rcases hex with ⟨j, hj, hj2⟩
                rcases List.mem_cons.1 hj with rfl | hj3
                · have hnone := (castItem_eq_none_iff j).2 hj2
                  rw [hc] at hnone
                  cases hnone
                · have hnone := ih.2 ⟨j, hj3, hj2⟩
                  rw [hr] at hnone
                  cases hnone

/-! Demonstration stores used to instantiate the theorems below at
concrete inputs. -/

def demoHash : BcryptHash := bcryptHash 5 "pw1"

def demoUserStore : UserStore := ⟨[⟨1, "alice", demoHash⟩], 2⟩

def demoIncome : Income := ⟨10, 250, none, some "salary", 1, 3⟩

def demoIncomeStore : IncomeStore := ⟨[demoIncome]⟩

def demoExpense : Expense := ⟨20, [⟨"coffee", 35⟩], 35, [], none, 1, 4⟩

def demoExpenseStore : ExpenseStore := ⟨[demoExpense]⟩

/-! Claim theorems. -/

/-- Claim C2: every failed login produces the same response, 401 with the
message Invalid credentials, whether the username does not exist or the
supplied password does not match the stored hash; no login error carries
any other status or message, so the two causes are indistinguishable
from the response. -/
theorem login_failure_indistinguishable (s : UserStore) (un pw : String) :
    (findOneUser s un = none →
        login s un pw = .error ⟨401, "Invalid credentials"⟩) ∧
    (∀ u, findOneUser s un = some u → bcryptCompare pw u.password = false →
        login s un pw = .error ⟨401, "Invalid credentials"⟩) ∧
    (∀ e, login s un pw = .error e → e = ⟨401, "Invalid credentials"⟩) := by
  refine ⟨?_, ?_, ?_⟩
  · intro h
    unfold login
    rw [h]
  · intro u hu hcmp
    unfold login
    rw [hu]
    simp [hcmp]
  · intro e he
    unfold login at he
    cases h2 : findOneUser s un with
    | none =>
        rw [h2] at he
        injection he with h3
        exact h3.symm
    | some u =>
        rw [h2] at he
        by_cases hb : bcryptCompare pw u.password = true
        · simp [hb] at he
        · simp [hb] at he
          exact he.symm

/-- Witness for C2: an unknown username and a wrong password for an
existing user both yield exactly the 401 Invalid credentials error. -/
theorem login_failure_indistinguishable_witness :
    login demoUserStore "bob" "x" = .error ⟨401, "Invalid credentials"⟩ ∧
    login demoUserStore "alice" "wrong" = .error ⟨401, "Invalid credentials"⟩ := by
  constructor
  · exact (login_failure_indistinguishable demoUserStore "bob" "x").1 (by decide)
  · exact (login_failure_indistinguishable demoUserStore "alice" "wrong").2.1
      ⟨1, "alice", demoHash⟩ (by decide) (by decide)

/-- Claim C7: registration fails with the duplicate-username conflict outcome
exactly when a user with the identical username already exists, and in
that case the user store is returned unchanged (no insertion, existing
records untouched); with no such username the registration succeeds and
appends the new user. -/
theorem register_conflict_or_create (s : UserStore) (un pw : String) (salt : Nat) :
    ((∃ u ∈ s.users, u.username = un) →
        createFirstUser s un pw salt = (.conflict, s)) ∧
    ((¬ ∃ u ∈ s.users, u.username = un) →
        createFirstUser s un pw salt =
          (.created, ⟨s.users ++ [⟨s.nextId, un, bcryptHash salt pw⟩],
            s.nextId + 1⟩)) := by
  constructor
  · rintro ⟨u, hu, hun⟩
    unfold createFirstUser
    cases h : findOneUser s un with
    | none =>
        exfalso
        unfold findOneUser at h
        rw [List.find?_eq_none] at h
        exact h u hu (by simp [hun])
    | some v => rfl
  · intro h
    unfold createFirstUser
    cases h2 : findOneUser s un with
    | some v =>
        exfalso
        unfold findOneUser at h2
        have hv := List.find?_some h2
        have hm := List.mem_of_find?_eq_some h2
        exact h ⟨v, hm, by simpa using hv⟩
    | none => rfl

/-- Witness for C7: registering alice again conflicts and leaves the
store unchanged, while the differently-cased Alice does not conflict
(exact case-sensitive match) and is created. -/
theorem register_conflict_or_create_witness :
    createFirstUser demoUserStore "alice" "z" 9 = (.conflict, demoUserStore) ∧
    createFirstUser demoUserStore "Alice" "z" 9 =
      (.created, ⟨demoUserStore.users ++ [⟨2, "Alice", bcryptHash 9 "z"⟩], 3⟩) := by
  constructor
  · exact (register_conflict_or_create demoUserStore "alice" "z" 9).1
      ⟨⟨1, "alice", demoHash⟩, by decide, rfl⟩
  · exact (register_conflict_or_create demoUserStore "Alice" "z" 9).2 (by decide)

/-- Claim C9: an expense create whose items form field is absent or not
parseable JSON (JSON.parse throws) answers 400 before any document is
built, and the expense store is returned unchanged. -/
theorem expense_create_unparseable_items (s : ExpenseStore) (uid : Nat)
    (ta : Option Int) (nts : Option String) (fls : List FileRef) (rid now : Nat) :
    expenseCreate s uid none ta nts fls rid now =
      (.error ⟨400, "Unexpected token in JSON"⟩, s) := rfl

/-- Claim C5: registering a fresh username and then logging in with the same
credentials succeeds; the token carries exactly the id assigned to the
created user, and the stored credential is the salted bcrypt image of
the password, not the raw value. -/
theorem register_then_login (s : UserStore) (un pw : String) (salt : Nat)
    (hfresh : findOneUser s un = none) :
    ∃ s2, createFirstUser s un pw salt = (.created, s2) ∧
      (⟨s.nextId, un, bcryptHash salt pw⟩ : StoredUser) ∈ s2.users ∧
      login s2 un pw = .ok ⟨s.nextId⟩ := by
  refine ⟨⟨s.users ++ [⟨s.nextId, un, bcryptHash salt pw⟩], s.nextId + 1⟩, ?_, ?_, ?_⟩
  · unfold createFirstUser
    rw [hfresh]
  · simp
  · unfold login
    have hfind : findOneUser
        ⟨s.users ++ [⟨s.nextId, un, bcryptHash salt pw⟩], s.nextId + 1⟩ un =
        some ⟨s.nextId, un, bcryptHash salt pw⟩ := by
      unfold findOneUser at hfresh ⊢
      rw [List.find?_append, hfresh]
      simp
    rw [hfind]
    simp [bcryptCompare, bcryptHash]

/-- Witness for C5: registering bob then logging in as bob yields the
token for the new user id 2, whose stored credential is the hash. -/
theorem register_then_login_witness :
    ∃ s2, createFirstUser demoUserStore "bob" "secret" 7 = (.created, s2) ∧
      (⟨2, "bob", bcryptHash 7 "secret"⟩ : StoredUser) ∈ s2.users ∧
      login s2 "bob" "secret" = .ok ⟨2⟩ :=
  register_then_login demoUserStore "bob" "secret" 7 (by decide)

/-- Helper for the password-change claim: after rewriting one user to a
fresh hash of the new password, a login under that username behaves as
a bcrypt comparison against the fresh hash. -/
theorem login_after_password_map (users : List StoredUser) (nid : Nat)
    (u : StoredUser) (uid salt : Nat) (npw : String)
    (hun : users.find? (fun x => x.username == u.username) = some u)
    (hid : (u.id == uid) = true) (pw : String) :
    login ⟨users.map (fun x =>
        if x.id == uid then { x with password := bcryptHash salt npw } else x),
        nid⟩ u.username pw =
      if bcryptCompare pw (bcryptHash salt npw) then Except.ok ⟨u.id⟩
      else Except.error ⟨401, "Invalid credentials"⟩ := by
  have hfind := find?_username_map users u.username
      (fun x => if x.id == uid then { x with password := bcryptHash salt npw } else x)
      (fun x => by by_cases h : x.id == uid <;> simp [h]) u hun
  unfold login findOneUser
  simp only []
  rw [hfind]
  simp [hid]

/-- Claim C4: change-password answers 404 when the token userId resolves to
no stored user, 401 when the current password does not match the stored
hash, and otherwise succeeds, storing a fresh hash of the new password,
after which a login with the old password fails and a login with the
new password succeeds. -/
theorem change_password_spec (s : UserStore) (uid : Nat) (cur npw : String)
    (salt : Nat) :
    (findUserById s uid = none →
        changePassword s uid cur npw salt = (.error ⟨404, "User not found"⟩, s)) ∧
    (∀ u, findUserById s uid = some u → bcryptCompare cur u.password = false →
        changePassword s uid cur npw salt =
          (.error ⟨401, "Current password is incorrect"⟩, s)) ∧
    (∀ u, findUserById s uid = some u → bcryptCompare cur u.password = true →
      findOneUser s u.username = some u → cur ≠ npw →
        ∃ s2, changePassword s uid cur npw salt = (.ok (), s2) ∧
          ({ u with password := bcryptHash salt npw } : StoredUser) ∈ s2.users ∧
          login s2 u.username cur = .error ⟨401, "Invalid credentials"⟩ ∧
          login s2 u.username npw = .ok ⟨u.id⟩) := by
  refine ⟨?_, ?_, ?_⟩
  · intro h
    unfold changePassword
    rw [h]
  · intro u hu hcmp
    unfold changePassword
    rw [hu]
    simp [hcmp]
  · intro u hu hcmp hun hne
    have hid : (u.id == uid) = true := by
      unfold findUserById at hu
      have h2 := List.find?_some hu
      simpa using h2
    have hmem : u ∈ s.users := by
      unfold findUserById at hu
      exact List.mem_of_find?_eq_some hu
    refine ⟨⟨s.users.map (fun x =>
        if x.id == uid then { x with password := bcryptHash salt npw } else x),
        s.nextId⟩, ?_, ?_, ?_, ?_⟩
    · unfold changePassword
      rw [hu]
      simp [hcmp]
    · have := List.mem_map_of_mem
        (fun x => if x.id == uid then { x with password := bcryptHash salt npw } else x)
        hmem
      simpa [hid] using this
    · rw [login_after_password_map s.users s.nextId u uid salt npw
        (by unfold findOneUser at hun; exact hun) hid cur]
      have hfalse : bcryptCompare cur (bcryptHash salt npw) = false := by
        simp [bcryptCompare, bcryptHash]
        intro h
        exact absurd h hne
      rw [hfalse]
      simp
    · rw [login_after_password_map s.users s.nextId u uid salt npw
        (by unfold findOneUser at hun; exact hun) hid npw]
      simp [bcryptCompare, bcryptHash]

/-- Witness for C4: alice changes pw1 to pw2; afterwards logging in
with pw1 fails with 401 and logging in with pw2 returns the token for
user 1. -/
theorem change_password_spec_witness :
    ∃ s2, changePassword demoUserStore 1 "pw1" "pw2" 8 = (.ok (), s2) ∧
      (⟨1, "alice", bcryptHash 8 "pw2"⟩ : StoredUser) ∈ s2.users ∧
      login s2 "alice" "pw1" = .error ⟨401, "Invalid credentials"⟩ ∧
      login s2 "alice" "pw2" = .ok ⟨1⟩ :=
  (change_password_spec demoUserStore 1 "pw1" "pw2" 8).2.2
    ⟨1, "alice", demoHash⟩ (by decide) (by decide) (by decide) (by decide)

/-- Claim C1: read, update and delete on income and expense records succeed
only when the acting identity equals createdBy of a stored record with
the requested id, and whenever no such owned record exists (the id is
absent entirely, or the record belongs to another identity) every
operation answers the one fixed 404 not-found response: never the
record contents and never a distinct forbidden response, so the two
failure modes are indistinguishable. -/
theorem ownership_folded_access (si : IncomeStore) (se : ExpenseStore)
    (uid rid : Nat) (am : Int) (nts : Option String) (fl : Option FileRef)
    (itf : Option (List RawItem)) (ta : Option Int) (fls : List FileRef) :
    (∀ r, incomeGetById si uid rid = .ok r →
        r ∈ si.records ∧ r.id = rid ∧ r.createdBy = uid) ∧
    (∀ r s2, incomeUpdate si uid rid am nts fl = (.ok r, s2) →
        r.createdBy = uid) ∧
    ((incomeDelete si uid rid).1 = .ok () →
        ∃ r ∈ si.records, r.id = rid ∧ r.createdBy = uid) ∧
    (∀ e, expenseGetById se uid rid = .ok e →
        e ∈ se.records ∧ e.id = rid ∧ e.createdBy = uid) ∧
    (∀ e s2, expenseUpdate se uid rid itf ta nts fls = (.ok e, s2) →
        e.createdBy = uid) ∧
    ((expenseDelete se uid rid).1 = .ok () →
        ∃ e ∈ se.records, e.id = rid ∧ e.createdBy = uid) ∧
    ((¬ ∃ r ∈ si.records, r.id = rid ∧ r.createdBy = uid) →
        incomeGetById si uid rid = .error ⟨404, "Income record not found"⟩ ∧
        incomeUpdate si uid rid am nts fl =
          (.error ⟨404, "Income record not found"⟩, si) ∧
        incomeDelete si uid rid =
          (.error ⟨404, "Income record not found"⟩, si)) ∧
    ((¬ ∃ e ∈ se.records, e.id = rid ∧ e.createdBy = uid) →
        expenseGetById se uid rid = .error ⟨404, "Expense not found"⟩ ∧
        expenseUpdate se uid rid itf ta nts fls =
          (.error ⟨404, "Expense not found"⟩, se) ∧
        expenseDelete se uid rid = (.error ⟨404, "Expense not found"⟩, se)) := by
  refine ⟨?_, ?_, ?_, ?_, ?_, ?_, ?_, ?_⟩
  · intro r hok
    unfold incomeGetById at hok
    cases h : incomeFindOne si rid uid with
    | none => rw [h] at hok; cases hok
    | some r0 =>
        rw [h] at hok
        injection hok with h2
        exact h2 ▸ incomeFindOne_some h
  · intro r s2 hok
    unfold incomeUpdate at hok
    cases h : incomeFindOne si rid uid with
    | none => rw [h] at hok; simp at hok
    | some r0 =>
        rw [h] at hok
        simp only [Prod.mk.injEq] at hok
        injection hok.1 with h2
        rw [← h2]
        exact (incomeFindOne_some h).2.2
  · intro hok
    unfold incomeDelete at hok
    cases h : incomeFindOne si rid uid with
    | none => rw [h] at hok; cases hok
    | some r0 =>
        obtain ⟨hm, h1, h2⟩ := incomeFindOne_some h
        exact ⟨r0, hm, h1, h2⟩
  · intro e hok
    unfold expenseGetById at hok
    cases h : expenseFindOne se rid uid with
    | none => rw [h] at hok; cases hok
    | some e0 =>
        rw [h] at hok
        injection hok with h2
        exact h2 ▸ expenseFindOne_some h
  · intro e s2 hok
    unfold expenseUpdate at hok
    cases h : expenseFindOne se rid uid with
    | none => rw [h] at hok; simp at hok
    | some e0 =>
        rw [h] at hok
        simp only [] at hok
        cases itf with
        | none => simp at hok
        | some raw =>
            simp only [] at hok
            cases hc : castItems raw with
            | none =>
                rw [hc] at hok
                cases ta <;> simp at hok
            | some its =>
                rw [hc] at hok
                cases ta with
                | none => simp at hok
                | some ta0 =>
                    simp only [Prod.mk.injEq] at hok
                    injection hok.1 with h2
                    rw [← h2]
                    exact (expenseFindOne_some h).2.2
  · intro hok
    unfold expenseDelete at hok
    cases h : expenseFindOne se rid uid with
    | none => rw [h] at hok; cases hok
    | some e0 =>
        obtain ⟨hm, h1, h2⟩ := expenseFindOne_some h
        exact ⟨e0, hm, h1, h2⟩
  · intro hne
    have h := incomeFindOne_none hne
    refine ⟨?_, ?_, ?_⟩
    · unfold incomeGetById
      rw [h]
    · unfold incomeUpdate
      rw [h]
    · unfold incomeDelete
      rw [h]
  · intro hne
    have h := expenseFindOne_none hne
    refine ⟨?_, ?_, ?_⟩
    · unfold expenseGetById
      rw [h]
    · unfold expenseUpdate
      rw [h]
    · unfold expenseDelete
      rw [h]

/-- Witness for C1: the owner (user 1) reads the stored income record,
while user 2 probing the same income id and the same expense id gets
the identical 404 response an absent id would give. -/
theorem ownership_folded_access_witness :
    (demoIncome ∈ demoIncomeStore.records ∧ demoIncome.id = 10 ∧
      demoIncome.createdBy = 1) ∧
    incomeGetById demoIncomeStore 2 10 = .error ⟨404, "Income record not found"⟩ ∧
    expenseGetById demoExpenseStore 2 20 = .error ⟨404, "Expense not found"⟩ := by
  refine ⟨?_, ?_, ?_⟩
  · exact (ownership_folded_access demoIncomeStore demoExpenseStore 1 10 0 none
      none none none []).1 demoIncome rfl
  · exact ((ownership_folded_access demoIncomeStore demoExpenseStore 2 10 0 none
      none none none []).2.2.2.2.2.2.1 (by decide)).1
  · exact ((ownership_folded_access demoIncomeStore demoExpenseStore 2 20 0 none
      none none none []).2.2.2.2.2.2.2 (by decide)).1

/-- Claim C6: an update that passes the ownership-folded lookup replaces the
mutable fields from the payload, appends the uploaded references to the
existing images of an expense, replaces the slip reference of an
income, and never changes createdBy (the record built by the handler
keeps the id, createdBy and createdAt of the found record). -/
theorem update_replaces_fields (si : IncomeStore) (se : ExpenseStore)
    (uid ridI ridE : Nat) (r : Income) (e : Expense) (am : Int)
    (nts : Option String) (f : FileRef) (raw : List RawItem)
    (its : List ExpenseItem) (ta : Int) (fls : List FileRef)
    (hi : incomeFindOne si ridI uid = some r)
    (he : expenseFindOne se ridE uid = some e)
    (hc : castItems raw = some its) :
    (∃ s2, incomeUpdate si uid ridI am nts (some f) =
        (.ok { r with amount := am, notes := nts, slip := some f }, s2)) ∧
    (∃ s2, expenseUpdate se uid ridE (some raw) (some ta) nts fls =
        (.ok { e with items := its, totalAmount := ta, notes := nts,
                      images := e.images ++ fls }, s2)) := by
  constructor
  · refine ⟨⟨si.records.map (fun x =>
        if x.id == r.id then { r with amount := am, notes := nts, slip := some f }
        else x)⟩, ?_⟩
    unfold incomeUpdate
    rw [hi]
  · have himg : (if fls.length > 0 then e.images ++ fls else e.images) =
        e.images ++ fls := by
      cases fls with
      | nil => simp
      | cons a l => simp
    refine ⟨⟨se.records.map (fun x =>
        if x.id == e.id then
          { e with
              items := its
              totalAmount := ta
              notes := nts
              images := e.images ++ fls }
        else x)⟩, ?_⟩
    unfold expenseUpdate
    rw [he]
    simp only [hc, himg]

/-- Witness for C6: updating the stored income replaces amount, notes
and slip, and updating the stored expense appends the new image to the
existing one, both keeping createdBy 1. -/
theorem update_replaces_fields_witness :
    (∃ s2, incomeUpdate demoIncomeStore 1 10 99 (some "n") (some ⟨"uploads/s", "s"⟩) =
        (.ok { demoIncome with
                 amount := 99
                 notes := some "n"
                 slip := some ⟨"uploads/s", "s"⟩ }, s2)) ∧
    (∃ s2, expenseUpdate demoExpenseStore 1 20 (some [⟨some "tea", some 20⟩])
        (some 20) (some "n") [⟨"uploads/i", "i"⟩] =
        (.ok { demoExpense with
                 items := [⟨"tea", 20⟩]
                 totalAmount := 20
                 notes := some "n"
                 images := demoExpense.images ++ [⟨"uploads/i", "i"⟩] }, s2)) :=
  update_replaces_fields demoIncomeStore demoExpenseStore 1 10 20 demoIncome
    demoExpense 99 (some "n") ⟨"uploads/s", "s"⟩ [⟨some "tea", some 20⟩]
    [⟨"tea", 20⟩] 20 [⟨"uploads/i", "i"⟩] rfl rfl rfl

/-- Claim C10: an income update carrying no uploaded slip file overwrites
amount and notes from the payload but leaves the existing slip
reference exactly as stored, neither cleared nor replaced. -/
theorem income_update_keeps_slip (si : IncomeStore) (uid rid : Nat) (r : Income)
    (am : Int) (nts : Option String)
    (hi : incomeFindOne si rid uid = some r) :
    (∃ s2, incomeUpdate si uid rid am nts none =
        (.ok { r with amount := am, notes := nts }, s2)) ∧
    ({ r with amount := am, notes := nts } : Income).slip = r.slip := by
  constructor
  · refine ⟨⟨si.records.map (fun x =>
        if x.id == r.id then { r with amount := am, notes := nts } else x)⟩, ?_⟩
    unfold incomeUpdate
    rw [hi]
  · rfl

/-- Witness for C10: a slip-less update of an income that carries a
slip reference keeps that reference while changing amount and notes. -/
theorem income_update_keeps_slip_witness :
    (∃ s2, incomeUpdate ⟨[⟨11, 70, some ⟨"uploads/old", "old"⟩, none, 1, 5⟩]⟩ 1 11
        42 (some "edited") none =
        (.ok ⟨11, 42, some ⟨"uploads/old", "old"⟩, some "edited", 1, 5⟩, s2)) ∧
    (⟨11, 42, some ⟨"uploads/old", "old"⟩, some "edited", 1, 5⟩ : Income).slip =
      some ⟨"uploads/old", "old"⟩ :=
  income_update_keeps_slip ⟨[⟨11, 70, some ⟨"uploads/old", "old"⟩, none, 1, 5⟩]⟩ 1 11
    ⟨11, 70, some ⟨"uploads/old", "old"⟩, none, 1, 5⟩ 42 (some "edited") rfl

/-- Counterexample to C3: an expense create whose items sequence is
empty and whose totalAmount is valid succeeds and stores the document,
instead of being rejected with a 400 validation error as the claim
requires for an empty items sequence (the schema places required
validators on the fields of each item but never requires the array to
be non-empty). -/
theorem expense_create_empty_items_counterexample :
    expenseCreate ⟨[]⟩ 7 (some []) (some 350) none [] 1 0 =
      (.ok ⟨1, [], 350, [], none, 7, 0⟩, ⟨[⟨1, [], 350, [], none, 7, 0⟩]⟩) := rfl

/-- Claim C3 amended: expense create fails with a 400 error carrying the
underlying message exactly when the items field is absent or
unparseable, some supplied item lacks its required description or its
required numeric amount, or totalAmount is missing or non-numeric; on
every such failure the store is unchanged. An empty items sequence,
however, passes validation and the create succeeds. -/
theorem expense_create_validation (s : ExpenseStore) (uid : Nat)
    (itf : Option (List RawItem)) (ta : Option Int) (nts : Option String)
    (fls : List FileRef) (rid now : Nat) :
    ((∃ err, (expenseCreate s uid itf ta nts fls rid now).1 = .error err) ↔
      (itf = none ∨
        (∃ raw, itf = some raw ∧
          ∃ it ∈ raw, it.description = none ∨ it.amount = none) ∨
        ta = none)) ∧
    (∀ err, (expenseCreate s uid itf ta nts fls rid now).1 = .error err →
        err.status = 400 ∧ (expenseCreate s uid itf ta nts fls rid now).2 = s) ∧
    (∀ ta0, expenseCreate s uid (some []) (some ta0) nts fls rid now =
        (.ok ⟨rid, [], ta0, fls, nts, uid, now⟩,
          ⟨s.records ++ [⟨rid, [], ta0, fls, nts, uid, now⟩]⟩)) := by
  refine ⟨?_, ?_, ?_⟩
  · cases itf with
    | none => simp [expenseCreate]
    | some raw =>
        cases hc : castItems raw with
        | none =>
            have hbad := (castItems_eq_none_iff raw).1 hc
            constructor
            · intro _
              exact Or.inr (Or.inl ⟨raw, rfl, hbad⟩)
            · intro _
              refine ⟨⟨400, "Expense validation failed"⟩, ?_⟩
              simp [expenseCreate, hc]
        | some its =>
            cases ta with
            | none =>
                constructor
                · intro _
                  exact Or.inr (Or.inr rfl)
                · intro _
                  refine ⟨⟨400, "Expense validation failed"⟩, ?_⟩
                  simp [expenseCreate, hc]
            | some ta0 =>
                constructor
                · rintro ⟨err, herr⟩
                  simp [expenseCreate, hc] at herr
                · rintro (h1 | ⟨raw2, hraw2, hbad⟩ | h3)
                  · cases h1
                  · injection hraw2 with h4
                    subst h4
                    have hnone := (castItems_eq_none_iff raw).2 hbad
                    rw [hc] at hnone
                    cases hnone
                  · cases h3
  · intro err herr
    cases itf with
    | none =>
        simp [expenseCreate] at herr
        subst herr
        exact ⟨rfl, rfl⟩
    | some raw =>
        cases hc : castItems raw with
        | none =>
            simp [expenseCreate, hc] at herr
            subst herr
            exact ⟨rfl, by simp [expenseCreate, hc]⟩
        | some its =>
            cases ta with
            | none =>
                simp [expenseCreate, hc] at herr
                subst herr
                exact ⟨rfl, by simp [expenseCreate, hc]⟩
            | some ta0 =>
                simp [expenseCreate, hc] at herr
  · intro ta0
    rfl

/-- Witness for C3 amended: a create whose single item lacks its
description fails with err.status 400 and the store stays empty. -/
theorem expense_create_validation_witness :
    (⟨400, "Expense validation failed"⟩ : ApiError).status = 400 ∧
    (expenseCreate ⟨[]⟩ 7 (some [⟨none, some 5⟩]) (some 10) none [] 1 0).2 =
      (⟨[]⟩ : ExpenseStore) :=
  (expense_create_validation ⟨[]⟩ 7 (some [⟨none, some 5⟩]) (some 10) none [] 1 0).2.1
    ⟨400, "Expense validation failed"⟩ rfl

/-- Claim C8: listing incomes or expenses returns exactly the records
whose createdBy is the acting user, in descending createdAt order, and
a store of either type built by three creates at strictly increasing
times lists the three records newest first, the reverse of insertion
order. -/
theorem list_owner_sorted (si : IncomeStore) (se : ExpenseStore) (uid : Nat)
    (a1 a2 a3 b1 b2 b3 : Int) (id1 id2 id3 jd1 jd2 jd3 t1 t2 t3 : Nat)
    (h12 : t1 < t2) (h23 : t2 < t3) :
    (∀ r, r ∈ incomeList si uid ↔ r ∈ si.records ∧ r.createdBy = uid) ∧
    (incomeList si uid).Pairwise (fun x y => y.createdAt ≤ x.createdAt) ∧
    (∀ e, e ∈ expenseList se uid ↔ e ∈ se.records ∧ e.createdBy = uid) ∧
    (expenseList se uid).Pairwise (fun x y => y.createdAt ≤ x.createdAt) ∧
    incomeList
      ((incomeCreate ((incomeCreate ((incomeCreate ⟨[]⟩ uid (some a1) none none
          id1 t1).2) uid (some a2) none none id2 t2).2) uid (some a3) none none
          id3 t3).2) uid =
      [⟨id3, a3, none, none, uid, t3⟩, ⟨id2, a2, none, none, uid, t2⟩,
        ⟨id1, a1, none, none, uid, t1⟩] ∧
    expenseList
      ((expenseCreate ((expenseCreate ((expenseCreate ⟨[]⟩ uid (some []) (some b1)
          none [] jd1 t1).2) uid (some []) (some b2) none [] jd2 t2).2) uid
          (some []) (some b3) none [] jd3 t3).2) uid =
      [⟨jd3, [], b3, [], none, uid, t3⟩, ⟨jd2, [], b2, [], none, uid, t2⟩,
        ⟨jd1, [], b1, [], none, uid, t1⟩] := by
  have hle12 : t1 ≤ t2 := Nat.le_of_lt h12
  have hle23 : t2 ≤ t3 := Nat.le_of_lt h23
  have hle13 : t1 ≤ t3 := Nat.le_trans hle12 hle23
  refine ⟨?_, ?_, ?_, ?_, ?_, ?_⟩
  · intro r
    unfold incomeList
    rw [mem_sortDescBy]
    simp [List.mem_filter]
  · exact pairwise_sortDescBy _ _
  · intro e
    unfold expenseList
    rw [mem_sortDescBy]
    simp [List.mem_filter]
  · exact pairwise_sortDescBy _ _
  · show incomeList ⟨[⟨id1, a1, none, none, uid, t1⟩, ⟨id2, a2, none, none, uid, t2⟩,
        ⟨id3, a3, none, none, uid, t3⟩]⟩ uid = _
    unfold incomeList
    simp [sortDescBy, insertDescBy, hle12, hle23, hle13]
  · show expenseList ⟨[⟨jd1, [], b1, [], none, uid, t1⟩, ⟨jd2, [], b2, [], none, uid, t2⟩,
        ⟨jd3, [], b3, [], none, uid, t3⟩]⟩ uid = _
    unfold expenseList
    simp [sortDescBy, insertDescBy, hle12, hle23, hle13]

/-- Witness for C8: three incomes and three expenses for user 1 created
at times 1, 2, 3 each list newest first. -/
theorem list_owner_sorted_witness :
    incomeList ⟨[⟨100, 5, none, none, 1, 1⟩, ⟨101, 6, none, none, 1, 2⟩,
        ⟨102, 7, none, none, 1, 3⟩]⟩ 1 =
      [⟨102, 7, none, none, 1, 3⟩, ⟨101, 6, none, none, 1, 2⟩,
        ⟨100, 5, none, none, 1, 1⟩] ∧
    expenseList ⟨[⟨200, [], 8, [], none, 1, 1⟩, ⟨201, [], 9, [], none, 1, 2⟩,
        ⟨202, [], 10, [], none, 1, 3⟩]⟩ 1 =
      [⟨202, [], 10, [], none, 1, 3⟩, ⟨201, [], 9, [], none, 1, 2⟩,
        ⟨200, [], 8, [], none, 1, 1⟩] :=
  ⟨(list_owner_sorted ⟨[]⟩ ⟨[]⟩ 1 5 6 7 8 9 10 100 101 102 200 201 202 1 2 3
      (by decide) (by decide)).2.2.2.2.1,
    (list_owner_sorted ⟨[]⟩ ⟨[]⟩ 1 5 6 7 8 9 10 100 101 102 200 201 202 1 2 3
      (by decide) (by decide)).2.2.2.2.2⟩

end Pia
